import Mathlib

/-!
Verification of the voice-webchat turn pipeline (`nodejs/server.js`) and the
browser client (`nodejs/public/app.js`) of the Qwen3-TTS_Scripts repository.

The JavaScript is shallowly embedded: JS runtime values appearing in the
history payload are modelled by an inductive `JSVal`; fallible stages
(`fetch`-backed service calls) are modelled by `Except String` outcomes
supplied as oracles; the Express handler for `POST /api/chat` becomes a pure
function that also returns the trace of external-service stages it invoked.
-/

namespace VoiceWebchat

/-- JavaScript `String.prototype.trim()`: strip leading and trailing
whitespace.  (Defined over the character list so that it reduces inside the
kernel; `String.trim` itself is implemented with byte-position recursion.) -/
def jsTrim (s : String) : String :=
  String.mk
    (((s.toList.dropWhile Char.isWhitespace).reverse.dropWhile
      Char.isWhitespace).reverse)

/-- A JavaScript runtime value, as far as the chat-history payload is
concerned.  Numbers are modelled as integers: nothing in the embedded code
does arithmetic on them, only truthiness tests. -/
inductive JSVal where
  | null
  | undefined
  | bool (b : Bool)
  | num (n : Int)
  | str (s : String)
  | arr (xs : List JSVal)
  | obj (fields : List (String × JSVal))
  deriving Repr

namespace JSVal

/-- JavaScript truthiness (`!!v`): `null`, `undefined`, `false`, `0` and the
empty string are falsy; arrays and objects are always truthy. -/
def truthy : JSVal → Bool
  | .null => false
  | .undefined => false
  | .bool b => b
  | .num n => n != 0
  | .str s => s != ""
  | .arr _ => true
  | .obj _ => true

/-- `typeof v === "object"`: true for objects, arrays and `null`. -/
def isObjectType : JSVal → Bool
  | .obj _ => true
  | .arr _ => true
  | .null => true
  | _ => false

/-- Property access `v.name` on the values the history code can reach:
a named field lookup on an object, `undefined` everywhere else (arrays have
no named `role`/`content` properties). -/
def getField (v : JSVal) (name : String) : JSVal :=
  match v with
  | .obj fields =>
    match fields.lookup name with
    | some w => w
    | none => .undefined
  | _ => .undefined

/-- JavaScript strict equality `v === "lit"` against a string literal. -/
def eqStr : JSVal → String → Bool
  | .str s, t => s = t
  | _, _ => false

end JSVal

/-- A chat role accepted by the server: `"user"` or `"assistant"`. -/
inductive Role where
  | user
  | assistant
  deriving Repr, DecidableEq

/-- A normalized chat message `{role, content}` as kept by the server. -/
structure ChatMsg where
  role : Role
  content : String
  deriving Repr, DecidableEq

/-- One entry of the per-entry normalization pipeline inside
`normalizeChatHistory` (server.js lines 110-116): the role must be exactly
the string `"assistant"` or `"user"`, the content must be a string whose
trim is non-empty; otherwise the entry maps to `null` and is filtered out. -/
def normalizeEntry (e : JSVal) : Option ChatMsg :=
  let role : Option Role :=
    if (e.getField "role").eqStr "assistant" then some .assistant
    else if (e.getField "role").eqStr "user" then some .user
    else none
  let content : String :=
    match e.getField "content" with
    | .str s => jsTrim s
    | _ => ""
  match role with
  | some r => if content ≠ "" then some ⟨r, content⟩ else none
  | none => none

/-- `normalizeChatHistory(raw)` from server.js lines 94-117.  `parse` is the
oracle for `JSON.parse`: `none` models a thrown `SyntaxError`. -/
def normalizeChatHistory (parse : String → Option JSVal) (raw : JSVal) :
    List ChatMsg :=
  if ¬ raw.truthy then []
  else
    let parsedOpt : Option JSVal :=
      match raw with
      | .str s => parse s
      | v => some v
    match parsedOpt with
    | none => []
    | some parsed =>
      match parsed with
      | .arr xs =>
        (xs.filter fun e => e.truthy && e.isObjectType).filterMap normalizeEntry
      | _ => []

/-- Validity of a single raw history entry, written from the claim: the
entry must be an object carrying role exactly `"user"` or `"assistant"` and
a string content that is non-blank after trimming; everything else is
invalid and dropped. -/
def specValidEntry (e : JSVal) : Option ChatMsg :=
  if e.truthy && e.isObjectType then
    match e.getField "role", e.getField "content" with
    | .str r, .str c =>
      if r = "assistant" ∧ jsTrim c ≠ "" then some ⟨.assistant, jsTrim c⟩
      else if r = "user" ∧ jsTrim c ≠ "" then some ⟨.user, jsTrim c⟩
      else none
    | _, _ => none
  else none

/-- The string form of a role, as serialized on the LLM wire. -/
def Role.toStr : Role → String
  | .user => "user"
  | .assistant => "assistant"

/-- A message on the OpenAI-style completion wire (`{role, content}`);
roles here also include `"system"`. -/
structure LlmMsg where
  role : String
  content : String
  deriving Repr, DecidableEq

/-- Lift a normalized history entry onto the LLM wire. -/
def ChatMsg.toLlm (m : ChatMsg) : LlmMsg :=
  ⟨m.role.toStr, m.content⟩

/-- The prompt-relevant part of the server `config` object
(server.js lines 15-30). -/
structure Config where
  llmSystem : String
  llmPreprompt : String
  llmPostprompt : String
  deriving Repr, DecidableEq

/-- The default configuration when no environment overrides are present. -/
def defaultConfig : Config :=
  { llmSystem := "You are a helpful assistant."
    llmPreprompt := "Use the following transcription to respond conversationally."
    llmPostprompt := "" }

/-- The message-list construction inside `generateAssistantReply`
(server.js lines 120-132): system instruction, preamble, prior history when
non-empty, the transcript as a user message, then the postprompt as one more
user message when it is truthy. -/
def buildMessages (cfg : Config) (transcript : String)
    (chatHistory : List ChatMsg) : List LlmMsg :=
  let messages : List LlmMsg :=
    [⟨"system", cfg.llmSystem⟩, ⟨"user", cfg.llmPreprompt⟩]
  let messages :=
    if chatHistory.length > 0 then messages ++ chatHistory.map ChatMsg.toLlm
    else messages
  let messages := messages ++ [⟨"user", transcript⟩]
  if cfg.llmPostprompt ≠ "" then messages ++ [⟨"user", cfg.llmPostprompt⟩]
  else messages

/-- `{message: {content}}` with both layers nullable, as reached by the
optional chain `choices?.[0]?.message?.content`. -/
structure Choice where
  message : Option (Option String)
  deriving Repr, DecidableEq

/-- The completion-service response body: `choices` may be absent, empty, or
populated; `content` may be absent/null or any string. -/
structure CompletionResponse where
  choices : Option (List Choice)
  deriving Repr, DecidableEq

/-- `completion.choices?.[0]?.message?.content?.trim()` — `none` models the
chain bottoming out in `undefined`. -/
def replyOf (c : CompletionResponse) : Option String :=
  match c.choices with
  | none => none
  | some cs =>
    match cs.head? with
    | none => none
    | some ch =>
      match ch.message with
      | none => none
      | some msg =>
        match msg with
        | none => none
        | some content => some (jsTrim content)

/-- `generateAssistantReply(transcript, chatHistory)` (server.js lines
119-145).  `service` is the oracle for the awaited
`openai.chat.completions.create` call: `.error` models a rejected promise,
`.ok` a response body.  A falsy extracted reply (missing or blank after
trim) throws `"LLM response was empty."`. -/
def generateAssistantReply (cfg : Config)
    (service : List LlmMsg → Except String CompletionResponse)
    (transcript : String) (chatHistory : List ChatMsg) :
    Except String String :=
  let messages := buildMessages cfg transcript chatHistory
  match service messages with
  | .error e => .error e
  | .ok completion =>
    match replyOf completion with
    | none => .error "LLM response was empty."
    | some reply =>
      if reply = "" then .error "LLM response was empty." else .ok reply

/-- The uploaded audio file as multer presents it (`req.file`). -/
structure AudioFile where
  originalname : String
  mimetype : String
  deriving Repr, DecidableEq

/-- One external-service invocation recorded while handling a turn, with
the input that stage was given. -/
inductive StageCall where
  | transcription
  | completion (messages : List LlmMsg)
  | synthesis (text : String)
  deriving Repr, DecidableEq

/-- The JSON body of a successful turn (server.js lines 198-202). -/
structure TurnSuccess where
  transcript : String
  assistantReply : String
  audioBase64 : String
  deriving Repr, DecidableEq

/-- The HTTP outcome of `POST /api/chat`: 200 with the success body,
400 with `{error}` for a client error, 500 with `{error}` for a thrown
pipeline error. -/
inductive ChatResponse where
  | ok (body : TurnSuccess)
  | clientError (error : String)
  | serverError (error : String)
  deriving Repr, DecidableEq

/-- The `POST /api/chat` handler (server.js lines 173-209), instrumented
with the trace of external-service stages invoked.  `transcribe` is the
oracle for the awaited `transcribeAudio` call on this request's audio,
`llmService` for the completion call, `ttsService` for `synthesizeSpeech`
on a given reply text; `.error` models a rejection caught by the handler's
`try/catch`, which responds 500 with the error message. -/
def handleChat (cfg : Config) (parse : String → Option JSVal)
    (transcribe : Except String String)
    (llmService : List LlmMsg → Except String CompletionResponse)
    (ttsService : String → Except String String)
    (audioFile : Option AudioFile) (rawHistory : JSVal) :
    ChatResponse × List StageCall :=
  let chatHistory := normalizeChatHistory parse rawHistory
  match audioFile with
  | none => (.clientError "Missing recorded audio.", [])
  | some _ =>
    match transcribe with
    | .error e => (.serverError e, [.transcription])
    | .ok transcript =>
      let msgs := buildMessages cfg transcript chatHistory
      match generateAssistantReply cfg llmService transcript chatHistory with
      | .error e => (.serverError e, [.transcription, .completion msgs])
      | .ok assistantReply =>
        match ttsService assistantReply with
        | .error e =>
          (.serverError e,
            [.transcription, .completion msgs, .synthesis assistantReply])
        | .ok audioBase64 =>
          (.ok ⟨transcript, assistantReply, audioBase64⟩,
            [.transcription, .completion msgs, .synthesis assistantReply])

/-- The reference voice: audio bytes plus the trimmed transcript text
(server.js lines 38-42). -/
structure ReferenceVoice where
  audioBytes : List Nat
  transcriptText : String
  deriving Repr, DecidableEq

/-- The startup load of the reference voice (server.js lines 32-42):
`fs.readFileSync` on a missing file throws (modelled by `none` inputs);
the text file's content is trimmed and must be non-empty; the audio
buffer is stored without any check. -/
def loadReferenceVoice (audioFile : Option (List Nat))
    (textFile : Option String) : Except String ReferenceVoice :=
  match audioFile with
  | none => .error "ENOENT: no such file or directory (reference audio)"
  | some audioBytes =>
    match textFile with
    | none => .error "ENOENT: no such file or directory (reference text)"
    | some text =>
      let referenceText := jsTrim text
      if referenceText = "" then .error "Reference text file is empty."
      else .ok ⟨audioBytes, referenceText⟩

/-- One entry of the client-side `chatHistory` array (app.js line 109):
`content` is stored only when truthy, `audioBase64` defaults to `null`. -/
structure ClientTurn where
  role : String
  content : String
  audioBase64 : Option String
  deriving Repr, DecidableEq

/-- `appendChatMessage(role, content, audioBase64)` (app.js lines 105-111):
a falsy `content` (`undefined`, `null` or `""`, modelled by `none` /
`some ""`) makes the call a no-op; otherwise the entry is pushed. -/
def appendChatMessage (h : List ClientTurn) (role : String)
    (content : Option String) (audioBase64 : Option String) :
    List ClientTurn :=
  match content with
  | none => h
  | some c => if c = "" then h else h ++ [⟨role, c, audioBase64⟩]

/-- `clearChat()` (app.js lines 113-116): `chatHistory.length = 0`. -/
def clearChat (_h : List ClientTurn) : List ClientTurn := []

/-- The operations through which the client code mutates `chatHistory`
(its only mutation sites are `appendChatMessage` and `clearChat`). -/
inductive ClientOp where
  | append (role : String) (content : Option String)
      (audioBase64 : Option String)
  | clear

/-- Apply one client history operation. -/
def applyClientOp (h : List ClientTurn) : ClientOp → List ClientTurn
  | .append role content audio => appendChatMessage h role content audio
  | .clear => clearChat h

/-- Run a sequence of client history operations from a history. -/
def runClientOps (h : List ClientTurn) (ops : List ClientOp) :
    List ClientTurn :=
  ops.foldl applyClientOp h

/-- The client's handling of a successful turn response (app.js lines
243-251): append the transcript as a user turn when truthy, then the reply
as an assistant turn (with `data.audioBase64 || null`) when truthy. -/
def applyTurnSuccess (h : List ClientTurn) (body : TurnSuccess) :
    List ClientTurn :=
  let h1 :=
    if body.transcript ≠ "" then
      appendChatMessage h "user" (some body.transcript) none
    else h
  if body.assistantReply ≠ "" then
    appendChatMessage h1 "assistant" (some body.assistantReply)
      (if body.audioBase64 ≠ "" then some body.audioBase64 else none)
  else h1

/-- The phases of one recording attempt, following §4.1 of the design:
`requesting` is the suspension inside `startRecording` awaiting
`getUserMedia`, `finalizing` the suspension inside `stopRecording`
awaiting the recorder's stop event. -/
inductive RecPhase where
  | idle
  | requesting
  | recording
  | finalizing
  deriving Repr, DecidableEq

/-- The client recorder state: `isRecording` mirrors the module-level flag
in app.js; `micRequests` counts `getUserMedia` calls issued and
`openStreams` counts granted device streams not yet stopped. -/
structure RecorderState where
  phase : RecPhase
  isRecording : Bool
  micRequests : Nat
  openStreams : Nat
  deriving Repr, DecidableEq

/-- The recorder's initial state (page load). -/
def recInit : RecorderState := ⟨.idle, false, 0, 0⟩

/-- Events driving the recorder: the two entry points plus the resolutions
of their awaited device operations. -/
inductive RecEvent where
  | startCall
  | micGranted
  | micDenied
  | stopCall
  | stopDone
  deriving Repr, DecidableEq

/-- One step of the recorder machine, transcribed from `startRecording` /
`stopRecording` (app.js lines 161-217).  `startCall` returns immediately
when `isRecording` is set (line 162) and otherwise issues a `getUserMedia`
request; `micGranted` is the continuation after the await: build the
recorder, `start()`, set `isRecording`; `micDenied` throws back to the
click handler, which only sets a status line.  `stopCall` returns unless an
active recorder exists; `stopDone` is the continuation after the stop
event: the stream's tracks are stopped and `isRecording` is cleared. -/
def recStep (s : RecorderState) : RecEvent → RecorderState
  | .startCall =>
    if s.isRecording then s
    else { s with phase := .requesting, micRequests := s.micRequests + 1 }
  | .micGranted =>
    if s.phase = .requesting then
      { s with phase := .recording, isRecording := true,
               openStreams := s.openStreams + 1 }
    else s
  | .micDenied =>
    if s.phase = .requesting then { s with phase := .idle } else s
  | .stopCall =>
    if s.phase = .recording then { s with phase := .finalizing } else s
  | .stopDone =>
    if s.phase = .finalizing then
      { s with phase := .idle, isRecording := false,
               openStreams := s.openStreams - 1 }
    else s

/-- Run the recorder machine from its initial state over an event trace. -/
def recRun (evs : List RecEvent) : RecorderState :=
  evs.foldl recStep recInit

/-- The content of the last user-role message of an LLM message list. -/
def lastUserContent (msgs : List LlmMsg) : Option String :=
  ((msgs.filter fun m => m.role = "user").getLast?).map LlmMsg.content

/-- All stored client turns have non-empty content. -/
def clientInvariant (h : List ClientTurn) : Prop :=
  ∀ t ∈ h, t.content ≠ ""

/-- In every reachable recorder state, the `isRecording` flag is set while
the machine is Recording or Finalizing. -/
def recInvariant (s : RecorderState) : Prop :=
  (s.phase = .recording ∨ s.phase = .finalizing) → s.isRecording = true

/-- A mixed bag of valid and invalid raw history entries, exercising the
normalization pipeline. -/
def c2Entries : List JSVal :=
  [ .obj [("role", .str "user"), ("content", .str "  hello ")],
    .str "junk",
    .obj [("role", .str "admin"), ("content", .str "x")],
    .null,
    .num 0,
    .obj [("role", .str "assistant"), ("content", .str "hi there")],
    .obj [("role", .str "user"), ("content", .str "   ")],
    .obj [("role", .str "user")],
    .arr [.str "user"] ]

/-! ## Helper lemmas -/

lemma filterMap_filter_fuse {α β : Type} (p : α → Bool) (f : α → Option β)
    (xs : List α) :
    (xs.filter p).filterMap f =
      xs.filterMap fun e => if p e then f e else none := by
  induction xs with
  | nil => rfl
  | cons a l ih =>
    by_cases h : p a <;>
      simp [List.filter_cons, h, List.filterMap_cons, ih]

/-- The guarded per-entry normalization of `normalizeChatHistory` agrees
with the claim-side validity test on every JS value. -/
lemma normalizeEntry_eq_specValidEntry (e : JSVal) :
    (if e.truthy && e.isObjectType then normalizeEntry e else none) =
      specValidEntry e := by
  cases e with
  | obj fields =>
    rcases hr : fields.lookup "role" with _ | rv <;>
      rcases hc : fields.lookup "content" with _ | cv
    case none.none =>
      simp [normalizeEntry, specValidEntry, JSVal.getField, JSVal.truthy,
        JSVal.isObjectType, hr, hc, JSVal.eqStr]
    case none.some =>
      cases cv <;>
        simp [normalizeEntry, specValidEntry, JSVal.getField, JSVal.truthy,
          JSVal.isObjectType, hr, hc, JSVal.eqStr]
    case some.none =>
      cases rv <;>
        simp [normalizeEntry, specValidEntry, JSVal.getField, JSVal.truthy,
          JSVal.isObjectType, hr, hc, JSVal.eqStr]
      all_goals (split <;> rfl)
    case some.some =>
      cases rv <;> cases cv <;>
        simp [normalizeEntry, specValidEntry, JSVal.getField, JSVal.truthy,
          JSVal.isObjectType, hr, hc, JSVal.eqStr] <;>
        try (split <;> rfl)
      rename_i rs cs
      by_cases h1 : rs = "assistant" <;> by_cases h2 : rs = "user" <;>
        by_cases h3 : jsTrim cs = "" <;> simp [h1, h2, h3]
  | null =>
    simp [normalizeEntry, specValidEntry, JSVal.getField, JSVal.truthy,
      JSVal.isObjectType, JSVal.eqStr]
  | undefined =>
    simp [normalizeEntry, specValidEntry, JSVal.getField, JSVal.truthy,
      JSVal.isObjectType, JSVal.eqStr]
  | bool b =>
    simp [normalizeEntry, specValidEntry, JSVal.getField, JSVal.truthy,
      JSVal.isObjectType, JSVal.eqStr]
  | num n =>
    simp [normalizeEntry, specValidEntry, JSVal.getField, JSVal.truthy,
      JSVal.isObjectType, JSVal.eqStr]
  | str s =>
    simp [normalizeEntry, specValidEntry, JSVal.getField, JSVal.truthy,
      JSVal.isObjectType, JSVal.eqStr]
  | arr xs =>
    simp [normalizeEntry, specValidEntry, JSVal.getField, JSVal.truthy,
      JSVal.isObjectType, JSVal.eqStr]

/-- On an array payload, normalization is exactly the claim-side filter. -/
lemma normalizeChatHistory_arr (parse : String → Option JSVal)
    (xs : List JSVal) :
    normalizeChatHistory parse (.arr xs) = xs.filterMap specValidEntry := by
  show (xs.filter fun e => e.truthy && e.isObjectType).filterMap normalizeEntry
      = xs.filterMap specValidEntry
  rw [filterMap_filter_fuse]
  exact List.filterMap_congr fun e _ => normalizeEntry_eq_specValidEntry e

/-- Whatever the claim-side validity test accepts has non-empty content. -/
lemma specValidEntry_content_ne (e : JSVal) (m : ChatMsg)
    (h : specValidEntry e = some m) : m.content ≠ "" := by
  unfold specValidEntry at h
  split at h
  · split at h
    · split at h
      · rename_i hcond
        cases h
        exact hcond.2
      · split at h
        · rename_i hcond
          cases h
          exact hcond.2
        · cases h
    · cases h
  · cases h

/-- A successful completion stage never hands back an empty reply. -/
lemma generateAssistantReply_ok_ne_empty (cfg : Config)
    (svc : List LlmMsg → Except String CompletionResponse)
    (transcript : String) (hist : List ChatMsg) (r : String)
    (h : generateAssistantReply cfg svc transcript hist = .ok r) :
    r ≠ "" := by
  simp only [generateAssistantReply] at h
  split at h
  · cases h
  · split at h
    · cases h
    · split at h
      · cases h
      · rename_i hne
        cases h
        exact hne

/-- Appending a user-role message makes it the last user message. -/
lemma lastUserContent_append_user (msgs : List LlmMsg) (t : String) :
    lastUserContent (msgs ++ [⟨"user", t⟩]) = some t := by
  unfold lastUserContent
  rw [List.filter_append]
  simp [List.filter_cons, List.getLast?_concat]

/-- Each client history operation preserves non-emptiness of contents. -/
lemma clientInvariant_step (h : List ClientTurn) (op : ClientOp)
    (hinv : clientInvariant h) : clientInvariant (applyClientOp h op) := by
  cases op with
  | clear => intro t ht; cases ht
  | append role content audio =>
    cases content with
    | none => exact hinv
    | some c =>
      by_cases hc : c = ""
      · simpa [applyClientOp, appendChatMessage, hc] using hinv
      · intro t ht
        simp [applyClientOp, appendChatMessage, hc] at ht
        rcases ht with ht | ht
        · exact hinv t ht
        · rw [ht]
          exact hc

/-- Each recorder event preserves the `isRecording` flag invariant. -/
lemma recInvariant_step (s : RecorderState) (e : RecEvent)
    (hinv : recInvariant s) : recInvariant (recStep s e) := by
  cases e <;>
    simp only [recStep] <;>
    split <;>
    intro hph <;>
    first
      | rfl
      | (exact hinv hph)
      | (rcases hph with hph | hph <;> simp_all [recInvariant])

/-- The flag invariant holds in every reachable recorder state. -/
lemma recRun_invariant (evs : List RecEvent) : recInvariant (recRun evs) := by
  suffices hgen : ∀ (evs : List RecEvent) (s : RecorderState),
      recInvariant s → recInvariant (evs.foldl recStep s) by
    exact hgen evs recInit (fun h => by cases h <;> cases ‹_ = _›)
  intro evs
  induction evs with
  | nil => exact fun s hinv => hinv
  | cons e rest ih =>
    exact fun s hinv => ih (recStep s e) (recInvariant_step s e hinv)

/-! ## Claims -/

/-- Claim C1: when all three stages succeed — transcription with a
(non-empty) transcript, completion with a reply, synthesis with audio — the
turn endpoint answers exactly `{transcript, assistantReply, audioBase64}`
built from the stage outputs, and the client appends exactly two turns to
its history: a user turn carrying the transcript followed by an assistant
turn carrying the reply. -/
theorem c1_roundtrip (cfg : Config) (parse : String → Option JSVal)
    (svc : List LlmMsg → Except String CompletionResponse)
    (tts : String → Except String String) (af : AudioFile) (raw : JSVal)
    (h : List ClientTurn) (t r a : String)
    (ht : t ≠ "")
    (hg : generateAssistantReply cfg svc t (normalizeChatHistory parse raw) =
      .ok r)
    (hs : tts r = .ok a) (ha : a ≠ "") :
    handleChat cfg parse (.ok t) svc tts (some af) raw =
      (.ok ⟨t, r, a⟩,
        [.transcription,
         .completion (buildMessages cfg t (normalizeChatHistory parse raw)),
         .synthesis r]) ∧
    applyTurnSuccess h ⟨t, r, a⟩ =
      h ++ [⟨"user", t, none⟩, ⟨"assistant", r, some a⟩] := by
  have hr : r ≠ "" := generateAssistantReply_ok_ne_empty cfg svc t _ r hg
  constructor
  · simp [handleChat, hg, hs]
  · simp [applyTurnSuccess, appendChatMessage, ht, hr, ha]

/-- Claim C1 witness: the stubbed pipeline of the spec — transcription
`"hello"`, completion `"hi there"`, synthesis a base64 value — at empty
prior history. -/
theorem c1_roundtrip_witness :
    handleChat defaultConfig (fun _ => none) (.ok "hello")
        (fun _ => .ok ⟨some [⟨some (some "hi there")⟩]⟩)
        (fun _ => .ok "UklGRg==") (some ⟨"recording.webm", "audio/webm"⟩)
        .undefined =
      (.ok ⟨"hello", "hi there", "UklGRg=="⟩,
        [.transcription,
         .completion (buildMessages defaultConfig "hello" []),
         .synthesis "hi there"]) ∧
    applyTurnSuccess [] ⟨"hello", "hi there", "UklGRg=="⟩ =
      [⟨"user", "hello", none⟩, ⟨"assistant", "hi there", some "UklGRg=="⟩] := by
  exact c1_roundtrip defaultConfig (fun _ => none)
    (fun _ => .ok ⟨some [⟨some (some "hi there")⟩]⟩) (fun _ => .ok "UklGRg==")
    ⟨"recording.webm", "audio/webm"⟩ .undefined [] "hello" "hi there" "UklGRg=="
    (by decide) rfl rfl (by decide)

/-- Claim C2: on any input array, history normalization returns exactly the
valid entries in their original order — role exactly `"user"` or
`"assistant"`, content a string that is non-blank once trimmed — with
content trimmed, and every invalid entry dropped. -/
theorem c2_normalize_keeps_exactly_valid_entries
    (parse : String → Option JSVal) (xs : List JSVal) :
    normalizeChatHistory parse (.arr xs) = xs.filterMap specValidEntry ∧
    ∀ m ∈ normalizeChatHistory parse (.arr xs),
      (m.role = .user ∨ m.role = .assistant) ∧ m.content ≠ "" := by
  refine ⟨normalizeChatHistory_arr parse xs, fun m hm => ?_⟩
  rw [normalizeChatHistory_arr] at hm
  rcases List.mem_filterMap.mp hm with ⟨e, _, he⟩
  exact ⟨by cases m.role <;> simp, specValidEntry_content_ne e m he⟩

/-- Claim C2 witness: a concrete mixed array keeps exactly its two valid
entries, in order and trimmed. -/
theorem c2_normalize_witness :
    normalizeChatHistory (fun _ => none) (.arr c2Entries) =
      c2Entries.filterMap specValidEntry ∧
    normalizeChatHistory (fun _ => none) (.arr c2Entries) =
      [⟨.user, "hello"⟩, ⟨.assistant, "hi there"⟩] ∧
    ((⟨.user, "hello"⟩ : ChatMsg).role = .user ∨
      (⟨.user, "hello"⟩ : ChatMsg).role = .assistant) ∧
    (⟨.user, "hello"⟩ : ChatMsg).content ≠ "" := by
  have h := c2_normalize_keeps_exactly_valid_entries (fun _ => none) c2Entries
  have heval : normalizeChatHistory (fun _ => none) (.arr c2Entries) =
      [⟨.user, "hello"⟩, ⟨.assistant, "hi there"⟩] := by decide
  exact ⟨h.1, heval, h.2 ⟨.user, "hello"⟩ (by rw [heval]; decide)⟩

/-- Claim C3: a completion response whose extracted content is missing or
blank after trimming makes the completion stage fail with the empty-reply
error; a successful completion stage never returns `""`, and the synthesis
stage is never invoked on an empty string. -/
theorem c3_empty_reply_invariant :
    (∀ (cfg : Config) (svc : List LlmMsg → Except String CompletionResponse)
        (transcript : String) (hist : List ChatMsg) (c : CompletionResponse),
      svc (buildMessages cfg transcript hist) = .ok c →
      (replyOf c = none ∨ replyOf c = some "") →
      generateAssistantReply cfg svc transcript hist =
        .error "LLM response was empty.") ∧
    (∀ (cfg : Config) (svc : List LlmMsg → Except String CompletionResponse)
        (transcript : String) (hist : List ChatMsg) (r : String),
      generateAssistantReply cfg svc transcript hist = .ok r → r ≠ "") ∧
    (∀ (cfg : Config) (parse : String → Option JSVal)
        (transcribe : Except String String)
        (svc : List LlmMsg → Except String CompletionResponse)
        (tts : String → Except String String) (af : Option AudioFile)
        (raw : JSVal) (t : String),
      StageCall.synthesis t ∈ (handleChat cfg parse transcribe svc tts af raw).2 →
      t ≠ "") := by
  refine ⟨fun cfg svc transcript hist c hc hrep => ?_,
    fun cfg svc transcript hist r h =>
      generateAssistantReply_ok_ne_empty cfg svc transcript hist r h,
    fun cfg parse transcribe svc tts af raw t hmem => ?_⟩
  · simp only [generateAssistantReply]
    rw [hc]
    rcases hrep with h | h <;> simp [h]
  · unfold handleChat at hmem
    rcases af with _ | af
    · simp at hmem
    · rcases transcribe with e | transcript
      · simp at hmem
      · rcases hg : generateAssistantReply cfg svc transcript
            (normalizeChatHistory parse raw) with e | r
        · simp [hg] at hmem
        · rcases hs : tts r with e | a <;> simp [hg, hs] at hmem <;>
          · rw [hmem]
            exact generateAssistantReply_ok_ne_empty cfg svc transcript _ r hg

/-- Claim C3 witness: a whitespace-only content yields the empty-reply
error; concrete successful and failing pipelines never see `""`. -/
theorem c3_empty_reply_witness :
    generateAssistantReply defaultConfig
        (fun _ => .ok ⟨some [⟨some (some "   ")⟩]⟩) "hello" [] =
      .error "LLM response was empty." ∧
    "hi there" ≠ "" ∧
    "hi there2" ≠ "" := by
  refine ⟨c3_empty_reply_invariant.1 defaultConfig
      (fun _ => .ok ⟨some [⟨some (some "   ")⟩]⟩) "hello" []
      ⟨some [⟨some (some "   ")⟩]⟩ rfl (Or.inr (by decide)),
    c3_empty_reply_invariant.2.1 defaultConfig
      (fun _ => .ok ⟨some [⟨some (some "hi there")⟩]⟩) "hello" [] "hi there"
      rfl,
    c3_empty_reply_invariant.2.2 defaultConfig (fun _ => none) (.ok "hello")
      (fun _ => .ok ⟨some [⟨some (some "hi there2")⟩]⟩) (fun _ => .error "tts down")
      (some ⟨"recording.webm", "audio/webm"⟩) .undefined "hi there2" (by decide)⟩

/-- Claim C4: a transcription failure aborts the turn with exactly that
error and invokes neither the completion nor the synthesis stage; a
completion failure aborts with exactly that error and never invokes the
synthesis stage. -/
theorem c4_short_circuit :
    (∀ (cfg : Config) (parse : String → Option JSVal)
        (svc : List LlmMsg → Except String CompletionResponse)
        (tts : String → Except String String) (af : AudioFile) (raw : JSVal)
        (e : String),
      handleChat cfg parse (.error e) svc tts (some af) raw =
        (.serverError e, [.transcription])) ∧
    (∀ (cfg : Config) (parse : String → Option JSVal)
        (svc : List LlmMsg → Except String CompletionResponse)
        (tts : String → Except String String) (af : AudioFile) (raw : JSVal)
        (transcript e : String),
      generateAssistantReply cfg svc transcript
          (normalizeChatHistory parse raw) = .error e →
      handleChat cfg parse (.ok transcript) svc tts (some af) raw =
        (.serverError e,
          [.transcription,
           .completion (buildMessages cfg transcript
             (normalizeChatHistory parse raw))])) := by
  refine ⟨fun cfg parse svc tts af raw e => rfl,
    fun cfg parse svc tts af raw transcript e hg => ?_⟩
  simp [handleChat, hg]

/-- Claim C4 witness: a concrete whisper failure and a concrete completion
failure, each short-circuiting the rest of the pipeline. -/
theorem c4_short_circuit_witness :
    handleChat defaultConfig (fun _ => none) (.error "Whisper server error: 500 boom")
        (fun _ => .ok ⟨some [⟨some (some "hi")⟩]⟩) (fun _ => .ok "AAAA")
        (some ⟨"recording.webm", "audio/webm"⟩) .undefined =
      (.serverError "Whisper server error: 500 boom", [.transcription]) ∧
    handleChat defaultConfig (fun _ => none) (.ok "hello")
        (fun _ => .error "LLM down") (fun _ => .ok "AAAA")
        (some ⟨"recording.webm", "audio/webm"⟩) .undefined =
      (.serverError "LLM down",
        [.transcription, .completion (buildMessages defaultConfig "hello" [])]) := by
  exact ⟨c4_short_circuit.1 defaultConfig (fun _ => none)
      (fun _ => .ok ⟨some [⟨some (some "hi")⟩]⟩) (fun _ => .ok "AAAA")
      ⟨"recording.webm", "audio/webm"⟩ .undefined "Whisper server error: 500 boom",
    c4_short_circuit.2 defaultConfig (fun _ => none)
      (fun _ => .error "LLM down") (fun _ => .ok "AAAA")
      ⟨"recording.webm", "audio/webm"⟩ .undefined "hello" "LLM down" rfl⟩

/-- Claim C5: a turn submission without an audio file fails with the
missing-audio client error, and no external-service stage is invoked. -/
theorem c5_missing_audio (cfg : Config) (parse : String → Option JSVal)
    (transcribe : Except String String)
    (svc : List LlmMsg → Except String CompletionResponse)
    (tts : String → Except String String) (raw : JSVal) :
    handleChat cfg parse transcribe svc tts none raw =
      (.clientError "Missing recorded audio.", []) := rfl

/-- Claim C6 counterexample: with a non-empty postscript configured the
postscript — pushed with the user role — is the final user message, not the
transcript. -/
theorem c6_postscript_counterexample :
    lastUserContent
        (buildMessages ⟨"sys", "pre", "Keep it brief."⟩ "hi" []) =
      some "Keep it brief." ∧
    (some "Keep it brief." : Option String) ≠ some "hi" ∧
    (buildMessages ⟨"sys", "pre", "Keep it brief."⟩ "hi" []).getLast? =
      some ⟨"user", "Keep it brief."⟩ := by
  refine ⟨by decide, by decide, by decide⟩

/-- Claim C6 as amended: the message list is exactly system instruction,
preamble, prior history in order, transcript as a user message, then the
postscript (only when configured non-empty) as one further user-role
message; the transcript is the final user message exactly when no
postscript is configured, otherwise the postscript is. -/
theorem c6_message_order (cfg : Config) (transcript : String)
    (hist : List ChatMsg) :
    buildMessages cfg transcript hist =
      [⟨"system", cfg.llmSystem⟩, ⟨"user", cfg.llmPreprompt⟩] ++
        hist.map ChatMsg.toLlm ++ [⟨"user", transcript⟩] ++
        (if cfg.llmPostprompt ≠ "" then [⟨"user", cfg.llmPostprompt⟩]
         else []) ∧
    (cfg.llmPostprompt = "" →
      lastUserContent (buildMessages cfg transcript hist) = some transcript) ∧
    (cfg.llmPostprompt ≠ "" →
      lastUserContent (buildMessages cfg transcript hist) =
        some cfg.llmPostprompt) := by
  have hflat : buildMessages cfg transcript hist =
      [⟨"system", cfg.llmSystem⟩, ⟨"user", cfg.llmPreprompt⟩] ++
        hist.map ChatMsg.toLlm ++ [⟨"user", transcript⟩] ++
        (if cfg.llmPostprompt ≠ "" then [⟨"user", cfg.llmPostprompt⟩]
         else []) := by
    unfold buildMessages
    cases hist <;> by_cases hp : cfg.llmPostprompt = "" <;> simp [hp]
  refine ⟨hflat, fun hp => ?_, fun hp => ?_⟩
  · have hnil : (if cfg.llmPostprompt ≠ "" then
        [(⟨"user", cfg.llmPostprompt⟩ : LlmMsg)] else []) = [] := by simp [hp]
    rw [hflat, hnil, List.append_nil, lastUserContent_append_user]
  · have hpost : (if cfg.llmPostprompt ≠ "" then
        [(⟨"user", cfg.llmPostprompt⟩ : LlmMsg)] else []) =
        [⟨"user", cfg.llmPostprompt⟩] := by simp [hp]
    rw [hflat, hpost, lastUserContent_append_user]

/-- Claim C6 witness: the default (empty-postscript) configuration keeps
the transcript last; a configured postscript takes its place. -/
theorem c6_message_order_witness :
    buildMessages defaultConfig "hi" [⟨.user, "a"⟩, ⟨.assistant, "b"⟩] =
      [⟨"system", "You are a helpful assistant."⟩,
       ⟨"user", "Use the following transcription to respond conversationally."⟩,
       ⟨"user", "a"⟩, ⟨"assistant", "b"⟩, ⟨"user", "hi"⟩] ∧
    lastUserContent (buildMessages defaultConfig "hi" []) = some "hi" ∧
    lastUserContent (buildMessages ⟨"sys", "pre", "Keep it brief."⟩ "hi" []) =
      some "Keep it brief." := by
  refine ⟨by simpa using
      (c6_message_order defaultConfig "hi" [⟨.user, "a"⟩, ⟨.assistant, "b"⟩]).1,
    (c6_message_order defaultConfig "hi" []).2.1 rfl,
    (c6_message_order ⟨"sys", "pre", "Keep it brief."⟩ "hi" []).2.2
      (by decide)⟩

/-- Claim C7 counterexample: after one start the recorder is Requesting
with `isRecording` still false, so a second start is not a no-op — it
changes the state and issues a second device request. -/
theorem c7_requesting_counterexample :
    (recRun [.startCall]).phase = .requesting ∧
    recStep (recRun [.startCall]) .startCall ≠ recRun [.startCall] ∧
    (recStep (recRun [.startCall]) .startCall).micRequests = 2 := by
  refine ⟨rfl, by decide, rfl⟩

/-- Claim C7 as amended: in every reachable Recording or Finalizing state a
further start is a no-op that leaves the recorder state unchanged (only the
Requesting window is unguarded). -/
theorem c7_single_flight (evs : List RecEvent)
    (h : (recRun evs).phase = .recording ∨ (recRun evs).phase = .finalizing) :
    recStep (recRun evs) .startCall = recRun evs := by
  have hrec : (recRun evs).isRecording = true := recRun_invariant evs h
  simp [recStep, hrec]

/-- Claim C7 witness: a start issued while a granted recording is running
changes nothing. -/
theorem c7_single_flight_witness :
    recStep (recRun [.startCall, .micGranted]) .startCall =
      recRun [.startCall, .micGranted] ∧
    (recRun [.startCall, .micGranted]).phase = .recording := by
  exact ⟨c7_single_flight [.startCall, .micGranted] (Or.inl rfl), rfl⟩

/-- Claim C8 counterexample: an empty reference audio file does not prevent
startup — the load succeeds with an empty buffer. -/
theorem c8_empty_audio_counterexample :
    loadReferenceVoice (some []) (some "Reference speaker text.") =
      .ok ⟨[], "Reference speaker text."⟩ := by
  rfl

/-- Claim C8 as amended: the reference voice is loaded once at process
start; startup fails when either file is missing or when the text file is
blank after trimming, and otherwise succeeds — regardless of the audio
buffer's size. -/
theorem c8_reference_voice_load (audio : List Nat) (text : String) :
    (∀ t, loadReferenceVoice none t =
      .error "ENOENT: no such file or directory (reference audio)") ∧
    loadReferenceVoice (some audio) none =
      .error "ENOENT: no such file or directory (reference text)" ∧
    (jsTrim text = "" →
      loadReferenceVoice (some audio) (some text) =
        .error "Reference text file is empty.") ∧
    (jsTrim text ≠ "" →
      loadReferenceVoice (some audio) (some text) =
        .ok ⟨audio, jsTrim text⟩) := by
  refine ⟨fun t => rfl, rfl, fun h => ?_, fun h => ?_⟩ <;>
    simp [loadReferenceVoice, h]

/-- Claim C8 witness: both missing-file failures, the blank-text failure,
and a successful trimmed load. -/
theorem c8_reference_voice_witness :
    loadReferenceVoice none (some "x") =
      .error "ENOENT: no such file or directory (reference audio)" ∧
    loadReferenceVoice (some [82, 73]) none =
      .error "ENOENT: no such file or directory (reference text)" ∧
    loadReferenceVoice (some [82, 73]) (some "  ") =
      .error "Reference text file is empty." ∧
    loadReferenceVoice (some [82, 73]) (some " hi ") = .ok ⟨[82, 73], "hi"⟩ := by
  exact ⟨(c8_reference_voice_load [] "").1 (some "x"),
    (c8_reference_voice_load [82, 73] "").2.1,
    (c8_reference_voice_load [82, 73] "  ").2.2.1 (by decide),
    (c8_reference_voice_load [82, 73] " hi ").2.2.2 (by decide)⟩

/-- Claim C9: history normalization is total over whole payloads — a
null/missing payload, an unparseable string, or a parsed or direct value
that is not an array all yield the empty history instead of an error. -/
theorem c9_normalize_total (parse : String → Option JSVal) :
    normalizeChatHistory parse .null = [] ∧
    normalizeChatHistory parse .undefined = [] ∧
    (∀ s, parse s = none → normalizeChatHistory parse (.str s) = []) ∧
    (∀ s v, parse s = some v → (∀ ys, v ≠ .arr ys) →
      normalizeChatHistory parse (.str s) = []) ∧
    (∀ v, (∀ ys, v ≠ .arr ys) → (∀ s, v ≠ .str s) →
      normalizeChatHistory parse v = []) := by
  refine ⟨rfl, rfl, fun s hp => ?_, fun s v hp hv => ?_, fun v hv hs => ?_⟩
  · by_cases h : s = "" <;>
      simp [normalizeChatHistory, JSVal.truthy, h, hp]
  · by_cases h : s = ""
    · simp [normalizeChatHistory, JSVal.truthy, h]
    · cases v with
      | arr ys => exact absurd rfl (hv ys)
      | _ => simp [normalizeChatHistory, JSVal.truthy, h, hp]
  · cases v with
    | arr ys => exact absurd rfl (hv ys)
    | str s => exact absurd rfl (hs s)
    | num n =>
      by_cases h : n = 0 <;> simp [normalizeChatHistory, JSVal.truthy, h]
    | bool b => cases b <;> simp [normalizeChatHistory, JSVal.truthy]
    | _ => simp [normalizeChatHistory, JSVal.truthy]

/-- Claim C9 witness: null payload, unparseable string, parsed non-array
and direct non-array payloads all normalize to the empty history. -/
theorem c9_normalize_witness :
    normalizeChatHistory (fun _ => none) .null = [] ∧
    normalizeChatHistory (fun _ => none) (.str "not json") = [] ∧
    normalizeChatHistory (fun _ => some (.num 5)) (.str "5") = [] ∧
    normalizeChatHistory (fun _ => none) (.num 7) = [] := by
  refine ⟨(c9_normalize_total (fun _ => none)).1,
    (c9_normalize_total (fun _ => none)).2.2.1 "not json" rfl,
    (c9_normalize_total (fun _ => some (.num 5))).2.2.2.1 "5" (.num 5) rfl
      (fun ys h => JSVal.noConfusion h),
    (c9_normalize_total (fun _ => none)).2.2.2.2 (.num 7)
      (fun ys h => JSVal.noConfusion h) (fun s h => JSVal.noConfusion h)⟩

/-- Claim C10: appending with empty or missing content is a no-op, clearing
empties the history, and every history reachable through the client's
operations contains only turns with non-empty content. -/
theorem c10_client_history_invariant :
    (∀ (h : List ClientTurn) (role : String) (audio : Option String),
      appendChatMessage h role none audio = h ∧
      appendChatMessage h role (some "") audio = h) ∧
    (∀ h : List ClientTurn, clearChat h = []) ∧
    (∀ ops : List ClientOp, clientInvariant (runClientOps [] ops)) := by
  refine ⟨fun h role audio => ⟨rfl, by simp [appendChatMessage]⟩,
    fun h => rfl, fun ops => ?_⟩
  suffices hgen : ∀ (ops : List ClientOp) (h : List ClientTurn),
      clientInvariant h → clientInvariant (runClientOps h ops) by
    exact hgen ops [] (fun t ht => absurd ht (List.not_mem_nil t))
  intro ops
  induction ops with
  | nil => exact fun h hinv => hinv
  | cons op rest ih =>
    intro h hinv
    exact ih (applyClientOp h op) (clientInvariant_step h op hinv)

/-- Claim C10 witness: a concrete operation sequence with empty-content
no-ops, a clear, and appends keeps the invariant. -/
theorem c10_client_history_witness :
    appendChatMessage [] "user" none none = [] ∧
    clearChat [⟨"user", "hello", none⟩] = [] ∧
    clientInvariant (runClientOps []
      [.append "user" (some "hello") none,
       .append "assistant" (some "") none,
       .append "assistant" none none,
       .append "assistant" (some "hi there") (some "QUJD"),
       .clear,
       .append "user" (some "again") none]) := by
  exact ⟨(c10_client_history_invariant.1 [] "user" none).1,
    c10_client_history_invariant.2.1 [⟨"user", "hello", none⟩],
    c10_client_history_invariant.2.2 _⟩

end VoiceWebchat
